import Mathlib

/-!
Verification of the digitalyze frontend's client-side data-access layer.

The definitions below are shallow embeddings of the TypeScript source:
  - `services/rules.ts` (`dataService.getEntities`, `dataService.getValidationErrors`,
    `aiService.getRuleRecommendations`),
  - `src/app/ai/fix/page.tsx` (AI-fix reconciliation, `handleGenerateFixes`,
    `handleApplyFix`),
  - `src/app/settings/page.tsx` (save-priorities disabled condition),
  - `store/useDataStore.ts` (`setFilters`),
  - `components/RuleRecommendations.tsx` (query function and retry policy),
  - the upload service (`uploadService.getUploadStatus`).

JavaScript-specific behaviour is embedded explicitly: string/option truthiness
(`""`, `undefined`, `null`, `0` are falsy), the `x || d` fallback idiom, and
`Map`/`Object.entries` as association lists.
-/

/-- JavaScript truthiness of a string: only `""` is falsy. -/
def jsTruthyStr (s : String) : Bool := !(s == "")

/-- JavaScript truthiness of an optional string value
(`undefined`/`null` and `""` are falsy). -/
def jsTruthyOpt (o : Option String) : Bool :=
  match o with
  | none => false
  | some s => jsTruthyStr s

/-- The JavaScript `v || d` idiom on an optional number: the fallback `d` is
used when the value is absent or `0` (both falsy). -/
def jsOrInt (o : Option Int) (d : Int) : Int :=
  match o with
  | some v => if v = 0 then d else v
  | none => d

/-- `Math.ceil(a / b)` for the integers that reach it in `getEntities`
(the code only divides by the requested `limit`).  For `b ≤ 0` JavaScript
produces a non-finite number; no claim exercises that case and the embedding
returns `0` there. -/
def jsCeilDiv (a b : Int) : Int :=
  if 0 < b then -(Int.ediv (-a) b) else 0

/-- JavaScript `Map.prototype.get` on an association list. -/
def jsMapGet (m : List (String × String)) (k : String) : Option String :=
  (m.find? (fun p => p.1 == k)).map (fun p => p.2)

/-- JavaScript `Map.prototype.set` on an association list: overwrite the
existing entry for the key, else append. -/
def jsMapSet (m : List (String × String)) (k v : String) : List (String × String) :=
  if m.any (fun p => p.1 == k) then
    m.map (fun p => if p.1 == k then (k, v) else p)
  else m ++ [(k, v)]

/- ### Validation errors (`dataService.getValidationErrors`, services/rules.ts) -/

/-- One backend validation error: `{row, field, message, severity, type}`,
with `row` optional.  From the response shape consumed in
`dataService.getValidationErrors`. -/
structure BackendValidationError where
  row : Option Int
  field : String
  message : String
  severity : String
  errType : String
  deriving Repr, DecidableEq

/-- The frontend `ValidationError` shape of `src/app/ai/fix/page.tsx`
(`{id, field, value, error, suggested_fix?, originalValidationId?}`), plus the
extra fields `getValidationErrors` copies through. -/
structure ValidationError where
  id : String
  field : String
  value : Option String
  error : String
  suggested_fix : Option String
  originalValidationId : Option String := none
  severity : Option String := none
  errType : Option String := none
  row : Option Int := none
  deriving Repr, DecidableEq

/-- The ID synthesized in `getValidationErrors`:
`` `${entity}-${error.row || 'unknown'}` ``.  JavaScript `||` falls back on a
falsy row, i.e. on an absent row and on row `0`. -/
def synthesizeValidationId (entity : String) (row : Option Int) : String :=
  match row with
  | some r => if r = 0 then entity ++ "-unknown" else entity ++ "-" ++ toString r
  | none => entity ++ "-unknown"

/-- Modelled from the spec: the spec states the synthesized ID as
`` `${entity}-${row ?? 'unknown'}` `` — the row whenever it is present, the
literal `unknown` only when it is absent. -/
def specSynthesizedId (entity : String) (row : Option Int) : String :=
  match row with
  | some r => entity ++ "-" ++ toString r
  | none => entity ++ "-unknown"

/-- Payload of the `/data/{entity}/validate` response: `data.errors`. -/
structure ValidationData where
  errors : Option (List BackendValidationError)
  deriving Repr, DecidableEq

/-- Envelope of the `/data/{entity}/validate` response. -/
structure ValidateResponse where
  success : Bool
  data : Option ValidationData
  deriving Repr, DecidableEq

/-- The per-error transform inside `getValidationErrors`. -/
def transformValidationError (entity : String) (e : BackendValidationError) :
    ValidationError :=
  { id := synthesizeValidationId entity e.row
    field := e.field
    value := none
    error := e.message
    suggested_fix := none
    originalValidationId := none
    severity := some e.severity
    errType := some e.errType
    row := e.row }

/-- `dataService.getValidationErrors` (services/rules.ts): on
`success && data && data.errors`, map the backend errors to the frontend
format; otherwise return `[]`. -/
def getValidationErrors (entity : String) (resp : ValidateResponse) :
    List ValidationError :=
  if resp.success then
    match resp.data with
    | some d =>
      match d.errors with
      | some es => es.map (transformValidationError entity)
      | none => []
    | none => []
  else []

/- ### Pagination adapter (`dataService.getEntities`, services/rules.ts) -/

/-- The backend `pagination` object; each field may be absent. -/
structure BackendPagination where
  page : Option Int
  limit : Option Int
  total : Option Int
  totalPages : Option Int
  deriving Repr, DecidableEq

/-- The shapes a `/data/{entity}` response can take: an envelope carrying a
`success` flag, a bare array (no `success` field, so the success test is
falsy and `Array.isArray` is true), or anything else. -/
inductive DataListResponse (α : Type) where
  | envelope (success : Bool) (data : Option (List α)) (pagination : Option BackendPagination)
  | bareArray (items : List α)
  | other
  deriving Repr, DecidableEq

/-- The flat result shape returned by `getEntities`. -/
structure PaginatedResponse (α : Type) where
  items : List α
  total : Int
  page : Int
  limit : Int
  totalPages : Int
  deriving Repr, DecidableEq

/-- `dataService.getEntities` response adaptation (services/rules.ts):
on a truthy `success`, read the fields out of `pagination` with `||`
fallbacks; otherwise synthesize a single-page result, using the response
itself as `items` when it is an array and `[]` otherwise.  `page` and `limit`
are the requested values. -/
def getEntities (α : Type) (page limit : Int) (resp : DataListResponse α) :
    PaginatedResponse α :=
  match resp with
  | .envelope true data pg =>
    { items := data.getD []
      total := jsOrInt (pg.bind (·.total)) 0
      page := jsOrInt (pg.bind (·.page)) page
      limit := jsOrInt (pg.bind (·.limit)) limit
      totalPages := jsOrInt (pg.bind (·.totalPages))
        (jsCeilDiv (jsOrInt (pg.bind (·.total)) 0) limit) }
  | .envelope false _ _ =>
    { items := [], total := 0, page := page, limit := limit, totalPages := 1 }
  | .bareArray arr =>
    { items := arr, total := arr.length, page := page, limit := limit, totalPages := 1 }
  | .other =>
    { items := [], total := 0, page := page, limit := limit, totalPages := 1 }

/- ### AI-fix reconciliation (`src/app/ai/fix/page.tsx`) -/

/-- One fix returned by the AI fix service (`AIFix` in
`src/app/ai/fix/page.tsx`). -/
structure AIFix where
  rowId : String
  field : String
  currentValue : Option String
  suggestedValue : Option String
  reason : String
  confidence : Int
  originalValidationId : Option String := none
  deriving Repr, DecidableEq

/-- The per-fix matching step of `fixErrorsMutation.onSuccess`: first try the
fix's truthy `originalValidationId` against an original error's `id` by exact
equality; only when that yields no match, fall back to the first original
error whose `field` equals the fix's `field`. -/
def findMatchingOriginalError (errors : List ValidationError) (fix : AIFix) :
    Option ValidationError :=
  let byId : Option ValidationError :=
    match fix.originalValidationId with
    | some ovid =>
      if jsTruthyStr ovid then errors.find? (fun e => e.id == ovid) else none
    | none => none
  match byId with
  | some e => some e
  | none => errors.find? (fun e => e.field == fix.field)

/-- The reconciliation map built in `fixErrorsMutation.onSuccess`: for each
fix whose matching step found an original error, set
`matchingOriginalError.id -> fix.rowId`. -/
def buildFixIdMapping (errors : List ValidationError) (fixes : List AIFix) :
    List (String × String) :=
  fixes.foldl
    (fun m fix =>
      match findMatchingOriginalError errors fix with
      | some e => jsMapSet m e.id fix.rowId
      | none => m)
    []

/-- The transform in `fixErrorsMutation.onSuccess` turning an `AIFix` into the
`ValidationError` shape displayed and later applied: `id := fix.rowId`,
`error := fix.reason || 'AI detected issue'`, and the matched original
error's id kept in `originalValidationId`. -/
def transformFix (errors : List ValidationError) (fix : AIFix) : ValidationError :=
  { id := fix.rowId
    field := fix.field
    value := fix.currentValue
    error := if jsTruthyStr fix.reason then fix.reason else "AI detected issue"
    suggested_fix := fix.suggestedValue
    originalValidationId := (findMatchingOriginalError errors fix).map (fun e => e.id) }

/-- A nonempty run of ASCII digits (JavaScript `\d+`). -/
def isAllDigits (cs : List Char) : Bool :=
  !cs.isEmpty && cs.all Char.isDigit

/-- The guard regex of `handleApplyFix`: `^(clients|workers|tasks)-\d+$`,
checked over the string's characters (all pattern characters are ASCII, so
character and byte positions coincide). -/
def matchesSyntheticId (s : String) : Bool :=
  ["clients", "workers", "tasks"].any fun p =>
    (s.toList.take (p.length + 1) == (p ++ "-").toList) &&
    isAllDigits (s.toList.drop (p.length + 1))

/-- Outcome of `handleApplyFix`: either a client-side rejection (a toast, no
network call) or an update request `dataService.updateEntity(entity, id,
{[field]: value})`. -/
inductive ApplyFixOutcome where
  | rejected (message : String)
  | updateRequest (entity : String) (id : String) (field : String) (value : Option String)
  deriving Repr, DecidableEq

/-- The `actualId` line of `handleApplyFix`:
`validationToFixIdMap.get(error.id) || error.id` — the mapped ID when it is
present and truthy, else the error's own id. -/
def resolveActualId (idMap : List (String × String)) (id : String) : String :=
  match jsMapGet idMap id with
  | some v => if jsTruthyStr v then v else id
  | none => id

/-- `handleApplyFix` (src/app/ai/fix/page.tsx): reject when there is no truthy
suggested fix; resolve the actual record ID through the reconciliation map
with fallback to the error's own id (`map.get(id) || id`); reject when the
resolved ID is falsy or when it is the error's own id and that id matches the
synthesized-ID pattern; otherwise issue the update request against the
resolved ID. -/
def handleApplyFix (entity : String) (idMap : List (String × String))
    (err : ValidationError) : ApplyFixOutcome :=
  if !(jsTruthyOpt err.suggested_fix) then
    .rejected "No suggested fix available"
  else
    let actualId := resolveActualId idMap err.id
    if !(jsTruthyStr actualId) || (actualId == err.id && matchesSyntheticId err.id) then
      .rejected ("Cannot apply fix: Invalid record ID " ++ actualId)
    else
      .updateRequest entity actualId err.field err.suggested_fix

/-- The cap on the number of errors sent to the AI fix service
(`maxErrors` in `handleGenerateFixes`). -/
def maxErrors : Nat := 20

/-- Outcome of `handleGenerateFixes`: either a client-side rejection or a
`fixErrorsMutation.mutate({entity, errors})` call. -/
inductive GenerateFixesOutcome where
  | rejected (message : String)
  | fixRequest (entity : String) (errors : List ValidationError)
  deriving Repr, DecidableEq

/-- `handleGenerateFixes` (src/app/ai/fix/page.tsx): reject when there are no
validation errors or a generation is already running; otherwise send the
first `maxErrors` errors to the fix service. -/
def handleGenerateFixes (entity : String)
    (validationErrors : Option (List ValidationError))
    (isGeneratingFixes : Bool) : GenerateFixesOutcome :=
  match validationErrors with
  | none => .rejected "No validation errors found"
  | some l =>
    if l.length = 0 then .rejected "No validation errors found"
    else if isGeneratingFixes then .rejected "Already generating fixes, please wait..."
    else .fixRequest entity (l.take maxErrors)

/- ### Priority-weight tolerance (`src/app/settings/page.tsx`) -/

/-- The `disabled` condition of the Save Priorities button:
`updating || Math.abs(sum - 1.0) > 0.01`.  Weights are modelled as rationals;
at the claim's inputs the double-precision rounding error (about `2e-16`) is
far below the `0.01` tolerance and does not affect the verdict. -/
def savePrioritiesDisabled (updating : Bool)
    (priorityLevelWeight fairnessWeight costWeight : ℚ) : Bool :=
  updating ||
    decide (|priorityLevelWeight + fairnessWeight + costWeight - 1| > 1 / 100)

/- ### Data store (`store/useDataStore.ts`) -/

/-- The `EntityFilters` record (types/index.ts); every field is optional. -/
structure EntityFilters where
  search : Option String
  status : Option String
  priority : Option Int
  sortBy : Option String
  sortOrder : Option String
  deriving Repr, DecidableEq

/-- The spread merge `{...state.filters, ...filters}` of `setFilters`: a field
present in the update wins, an absent field keeps the old value. -/
def mergeFilters (old upd : EntityFilters) : EntityFilters :=
  { search := match upd.search with | some v => some v | none => old.search
    status := match upd.status with | some v => some v | none => old.status
    priority := match upd.priority with | some v => some v | none => old.priority
    sortBy := match upd.sortBy with | some v => some v | none => old.sortBy
    sortOrder := match upd.sortOrder with | some v => some v | none => old.sortOrder }

/-- The store's pagination slice. -/
structure PaginationState where
  page : Int
  limit : Int
  total : Int
  totalPages : Int
  deriving Repr, DecidableEq

/-- The `useDataStore` state (store/useDataStore.ts); `α` is the entity
record type, `entities` the per-entity-type record arrays. -/
structure DataStoreState (α : Type) where
  currentEntity : String
  entities : List (String × List α)
  loading : Bool
  error : Option String
  filters : EntityFilters
  pagination : PaginationState
  selectedItems : List String
  deriving Repr, DecidableEq

/-- `setFilters` (store/useDataStore.ts): merge the partial filters into the
existing ones and reset `pagination.page` to 1, spreading the rest of the
pagination slice (and of the store state) unchanged. -/
def setFilters (α : Type) (s : DataStoreState α) (upd : EntityFilters) :
    DataStoreState α :=
  { s with
    filters := mergeFilters s.filters upd
    pagination := { s.pagination with page := 1 } }

/- ### Rule recommendations (`components/RuleRecommendations.tsx`,
`aiService.getRuleRecommendations`) -/

/-- One AI rule recommendation (shape only; its content is passed through). -/
structure RuleRecommendation where
  recType : String
  priority : String
  reason : String
  expectedBenefit : String
  confidence : Int
  deriving Repr, DecidableEq

/-- `response.data.data` of the recommendations endpoint. -/
structure RuleRecData where
  recommendations : Option (List RuleRecommendation)
  deriving Repr, DecidableEq

/-- `response.data` of the recommendations endpoint. -/
structure RuleRecResponse where
  success : Bool
  data : Option RuleRecData
  recommendations : Option (List RuleRecommendation)
  deriving Repr, DecidableEq

/-- A transport error as calling code sees it: the optional
`error.response.status`. -/
structure HttpError where
  status : Option Int
  deriving Repr, DecidableEq

/-- Settled outcome of an awaited axios call: a payload or a thrown error. -/
inductive AxiosOutcome (α : Type) where
  | success (payload : α)
  | failure (error : HttpError)
  deriving Repr, DecidableEq

/-- `aiService.getRuleRecommendations` (services/rules.ts): on a truthy
`success`, return `data?.recommendations || recommendations || []`; on a
falsy `success`, return `[]`; rethrow transport errors. -/
def getRuleRecommendations (resp : AxiosOutcome RuleRecResponse) :
    Except HttpError (List RuleRecommendation) :=
  match resp with
  | .success p =>
    if p.success then
      .ok (match p.data.bind (fun d => d.recommendations) with
        | some l => l
        | none => p.recommendations.getD [])
    else .ok []
  | .failure e => .error e

/-- The `queryFn` of the recommendations query
(components/RuleRecommendations.tsx): catch a status-400 error and return
`[]`; rethrow every other error. -/
def recommendationsQueryFn (resp : AxiosOutcome RuleRecResponse) :
    Except HttpError (List RuleRecommendation) :=
  match getRuleRecommendations resp with
  | .ok r => .ok r
  | .error e => if e.status == some 400 then .ok [] else .error e

/-- The `retry` policy of the recommendations query: never retry a status-400
error; retry other errors while `failureCount < 3`. -/
def recommendationsRetry (failureCount : Nat) (e : HttpError) : Bool :=
  if e.status == some 400 then false else failureCount < 3

/- ### Upload status (`uploadService.getUploadStatus`) -/

/-- One entry of the backend's status-by-entity map. -/
structure EntityUploadInfo where
  fileName : Option String
  hasData : Bool
  recordCount : Int
  deriving Repr, DecidableEq

/-- The `UploadStatus` record returned by `getUploadStatus`. -/
structure UploadStatus where
  filename : String
  status : String
  progress : Int
  message : String
  deriving Repr, DecidableEq

/-- The `/upload/status` response: a `success` flag and
`data.entities` (possibly absent, read as `statusData.entities || {}`). -/
structure UploadStatusResponse where
  success : Bool
  entities : Option (List (String × EntityUploadInfo))
  deriving Repr, DecidableEq

/-- `uploadService.getUploadStatus`: on success, scan `Object.entries` of the
status map and return, for the first entity whose `fileName` equals the
requested filename or which has data, a status derived from `hasData`;
otherwise (and on a falsy `success`) return the default
`{filename, status: 'completed', progress: 100, message: 'File processed'}`. -/
def getUploadStatus (filename : String) (resp : UploadStatusResponse) :
    UploadStatus :=
  if resp.success then
    match (resp.entities.getD []).find?
        (fun p => p.2.fileName == some filename || p.2.hasData) with
    | some p =>
      if p.2.hasData then
        { filename := filename, status := "completed", progress := 100
          message := toString p.2.recordCount ++ " records processed" }
      else
        { filename := filename, status := "failed", progress := 0
          message := "Processing failed" }
    | none =>
      { filename := filename, status := "completed", progress := 100
        message := "File processed" }
  else
    { filename := filename, status := "completed", progress := 100
      message := "File processed" }

/-! ## Theorems -/

/-- A backend validation error at row `0`. -/
def c3RowZeroError : BackendValidationError :=
  { row := some 0, field := "priority", message := "m", severity := "error",
    errType := "missing" }

/-- A successful validate response holding only `c3RowZeroError`. -/
def c3RowZeroResp : ValidateResponse :=
  { success := true, data := some { errors := some [c3RowZeroError] } }

/-- Two backend validation errors from entity `tasks`, both at row `4`, with
different fields. -/
def c3CollisionErrors : List BackendValidationError :=
  [{ row := some 4, field := "duration", message := "m1", severity := "error",
     errType := "t1" },
   { row := some 4, field := "priority", message := "m2", severity := "error",
     errType := "t2" }]

/-- A successful validate response holding `c3CollisionErrors`. -/
def c3CollisionResp : ValidateResponse :=
  { success := true, data := some { errors := some c3CollisionErrors } }

/-- Claim C3 (counterexample): the claim states the synthesized validation-ID
as `` `${entity}-${row ?? 'unknown'}` `` — the row whenever it is present.
The code uses `error.row || 'unknown'`, and JavaScript `||` also falls back on
row `0`: at entity `tasks`, row `0`, the code produces `tasks-unknown`, not
the `tasks-0` the claim predicts. -/
theorem c3_synthesized_id_counterexample :
    specSynthesizedId "tasks" (some 0) = "tasks-0" ∧
    synthesizeValidationId "tasks" (some 0) = "tasks-unknown" ∧
    (getValidationErrors "tasks" c3RowZeroResp).map (fun e => e.id)
      = ["tasks-unknown"] ∧
    ("tasks-unknown" : String) ≠ "tasks-0" := by
  refine ⟨rfl, rfl, rfl, by decide⟩

/-- Claim C3 (amended): every error returned by `getValidationErrors` for
entity `e` carries the ID `` `${e}-${row || 'unknown'}` `` — the entity name,
a hyphen, and the error's row when the row is present and nonzero, else the
literal `unknown` (row `0` is falsy in JavaScript and also yields `unknown`);
two errors with the same entity and row get the identical ID, e.g. `tasks-4`
twice — the collision exists. -/
theorem c3_synthesized_id_amended (entity : String) (es : List BackendValidationError) :
    ((getValidationErrors entity
        { success := true, data := some { errors := some es } }).map (fun e => e.id)
      = es.map (fun e => synthesizeValidationId entity e.row)) ∧
    (∀ r : Int, r ≠ 0 →
        synthesizeValidationId entity (some r) = entity ++ "-" ++ toString r) ∧
    synthesizeValidationId entity (some 0) = entity ++ "-unknown" ∧
    synthesizeValidationId entity none = entity ++ "-unknown" ∧
    (∀ e1 e2 : BackendValidationError, e1.row = e2.row →
        synthesizeValidationId entity e1.row = synthesizeValidationId entity e2.row) ∧
    ((getValidationErrors "tasks" c3CollisionResp).map (fun e => e.id)
      = ["tasks-4", "tasks-4"]) := by
  refine ⟨?_, ?_, rfl, rfl, ?_, rfl⟩
  · simp [getValidationErrors, transformValidationError]
  · intro r hr
    simp [synthesizeValidationId, hr]
  · intro e1 e2 h
    rw [h]

/-- Claim C3 witness: the amended ID formula evaluated at entity `tasks`,
row `4`. -/
theorem c3_synthesized_id_amended_witness :
    synthesizeValidationId "tasks" (some 4) = "tasks" ++ "-" ++ toString (4 : Int) :=
  (c3_synthesized_id_amended "tasks" []).2.1 4 (by decide)

/-- Claim C4 (counterexample): the claim states that for a bare-array
response the adapter returns `page: 1` for every requested page; the code
returns `page: page` — the requested page. At requested page `2` the output
page is `2`, not `1`. -/
theorem c4_bare_array_counterexample :
    (getEntities Int 2 50 (DataListResponse.bareArray [7])).page = 2 ∧
    ((2 : Int) ≠ 1) :=
  ⟨rfl, by decide⟩

/-- Claim C4 (amended): for every backend response that is a bare array and
every requested page and limit, `getEntities` returns `{items: the array,
total: the array's length, page: the requested page, limit: the requested
limit, totalPages: 1}`. -/
theorem c4_bare_array_adapter (α : Type) (page limit : Int) (arr : List α) :
    getEntities α page limit (DataListResponse.bareArray arr) =
      { items := arr, total := arr.length, page := page, limit := limit,
        totalPages := 1 } :=
  rfl

/-- Claim C5 (counterexample): the claim states the adapter output's `page`
equals `pagination.page` for every enveloped success response; the code reads
it as `pagination?.page || page`, so a zero `pagination.page` (falsy) falls
back to the requested page: with `pagination.page = 0` and requested page
`3`, the output page is `3`, not `0`. -/
theorem c5_envelope_counterexample :
    (getEntities Int 3 50 (DataListResponse.envelope true (some [7])
        (some { page := some 0, limit := some 10, total := some 1,
                totalPages := some 1 }))).page = 3 ∧
    ((3 : Int) ≠ 0) :=
  ⟨rfl, by decide⟩

/-- Claim C5 (amended): for every backend response shaped
`{success: true, data: [...], pagination: {page, limit, total, totalPages}}`
whose `page`, `limit` and `totalPages` are nonzero (truthy), the adapter
output of `getEntities` satisfies `items = data`, `page = pagination.page`,
`limit = pagination.limit`, `total = pagination.total`, and
`totalPages = pagination.totalPages`; a zero field would fall back through
`||` (`page`/`limit` to the requested values, `totalPages` to
`ceil(total / limit)`). -/
theorem c5_envelope_adapter (α : Type) (page limit : Int) (d : List α)
    (p l t tp : Int) (hp : p ≠ 0) (hl : l ≠ 0) (htp : tp ≠ 0) :
    getEntities α page limit (DataListResponse.envelope true (some d)
        (some { page := some p, limit := some l, total := some t,
                totalPages := some tp })) =
      { items := d, total := t, page := p, limit := l, totalPages := tp } := by
  have ht : (if t = 0 then (0 : Int) else t) = t := by
    by_cases h : t = 0 <;> simp [h]
  simp [getEntities, jsOrInt, hp, hl, htp, ht]

/-- Claim C5 witness: the amended adapter equation at a concrete enveloped
response. -/
theorem c5_envelope_adapter_witness :
    getEntities Int 1 50 (DataListResponse.envelope true (some [7])
        (some { page := some 2, limit := some 10, total := some 1,
                totalPages := some 1 })) =
      { items := [7], total := 1, page := 2, limit := 10, totalPages := 1 } :=
  c5_envelope_adapter Int 1 50 [7] 2 10 1 1 (by decide) (by decide) (by decide)

/-- Claim C6: the save action is enabled only when the weight sum is within
`0.01` of `1.0`; `{0.4, 0.3, 0.3}` passes the tolerance (and, absent an
in-flight update, leaves save enabled), and `{0.4, 0.3, 0.25}` (sum `0.95`)
fails it and disables save. -/
theorem c6_priority_weight_tolerance :
    (∀ (updating : Bool) (p f c : ℚ),
        savePrioritiesDisabled updating p f c = false →
        |p + f + c - 1| ≤ 1 / 100) ∧
    (|(2 : ℚ) / 5 + 3 / 10 + 3 / 10 - 1| ≤ 1 / 100) ∧
    savePrioritiesDisabled false (2 / 5) (3 / 10) (3 / 10) = false ∧
    (|(2 : ℚ) / 5 + 3 / 10 + 1 / 4 - 1| > 1 / 100) ∧
    (∀ updating : Bool,
        savePrioritiesDisabled updating (2 / 5) (3 / 10) (1 / 4) = true) := by
  have h0 : (2 : ℚ) / 5 + 3 / 10 + 3 / 10 - 1 = 0 := by norm_num
  have h1 : (2 : ℚ) / 5 + 3 / 10 + 1 / 4 - 1 = -(1 / 20) := by norm_num
  have habs : |(2 : ℚ) / 5 + 3 / 10 + 1 / 4 - 1| = 1 / 20 := by
    rw [h1, abs_neg]
    exact abs_of_nonneg (by norm_num)
  refine ⟨?_, ?_, ?_, ?_, ?_⟩
  · intro updating p f c h
    simp [savePrioritiesDisabled] at h
    simpa using h.2
  · rw [h0, abs_zero]
    norm_num
  · simp only [savePrioritiesDisabled, Bool.false_or]
    rw [h0]
    exact decide_eq_false (by rw [abs_zero]; norm_num)
  · rw [habs]
    norm_num
  · intro updating
    cases updating
    · simp only [savePrioritiesDisabled, Bool.false_or]
      exact decide_eq_true (by rw [habs]; norm_num)
    · simp only [savePrioritiesDisabled, Bool.true_or]

/-- Claim C6 witness: the tolerance gate evaluated at `{0.4, 0.3, 0.3}`. -/
theorem c6_priority_weight_tolerance_witness :
    savePrioritiesDisabled false (2 / 5) (3 / 10) (3 / 10) = false ∧
    |(2 : ℚ) / 5 + 3 / 10 + 3 / 10 - 1| ≤ 1 / 100 := by
  have h0 : (2 : ℚ) / 5 + 3 / 10 + 3 / 10 - 1 = 0 := by norm_num
  have hd : savePrioritiesDisabled false (2 / 5) (3 / 10) (3 / 10) = false := by
    simp only [savePrioritiesDisabled, Bool.false_or]
    rw [h0]
    exact decide_eq_false (by rw [abs_zero]; norm_num)
  exact ⟨hd, c6_priority_weight_tolerance.1 false (2 / 5) (3 / 10) (3 / 10) hd⟩

/-- Claim C7: for every store state and partial filter update, `setFilters`
resets `pagination.page` to 1, leaves `pagination.limit`, `total` and
`totalPages` (and every other store slice) unchanged, and merges the update
into the existing filters field by field (a present field wins, an absent
field keeps the old value). -/
theorem c7_set_filters_resets_page (α : Type) (s : DataStoreState α)
    (upd : EntityFilters) :
    (setFilters α s upd).pagination.page = 1 ∧
    (setFilters α s upd).pagination.limit = s.pagination.limit ∧
    (setFilters α s upd).pagination.total = s.pagination.total ∧
    (setFilters α s upd).pagination.totalPages = s.pagination.totalPages ∧
    (setFilters α s upd).filters.search = (upd.search <|> s.filters.search) ∧
    (setFilters α s upd).filters.status = (upd.status <|> s.filters.status) ∧
    (setFilters α s upd).filters.priority = (upd.priority <|> s.filters.priority) ∧
    (setFilters α s upd).filters.sortBy = (upd.sortBy <|> s.filters.sortBy) ∧
    (setFilters α s upd).filters.sortOrder = (upd.sortOrder <|> s.filters.sortOrder) ∧
    (setFilters α s upd).currentEntity = s.currentEntity ∧
    (setFilters α s upd).entities = s.entities ∧
    (setFilters α s upd).loading = s.loading ∧
    (setFilters α s upd).error = s.error ∧
    (setFilters α s upd).selectedItems = s.selectedItems := by
  obtain ⟨se, st, pr, sb, so⟩ := upd
  refine ⟨rfl, rfl, rfl, rfl, ?_, ?_, ?_, ?_, ?_, rfl, rfl, rfl, rfl, rfl⟩
  · cases se <;> rfl
  · cases st <;> rfl
  · cases pr <;> rfl
  · cases sb <;> rfl
  · cases so <;> rfl

/-- Claim C8: a status-400 error from the rule-recommendation endpoint makes
the query function return `[]` instead of propagating, and the retry policy
performs no retries for it; every other error propagates and is retried
exactly while fewer than 3 failures have occurred. -/
theorem c8_recommendations_400_no_data :
    (∀ e : HttpError, e.status = some 400 →
        recommendationsQueryFn (AxiosOutcome.failure e) = Except.ok [] ∧
        ∀ n : Nat, recommendationsRetry n e = false) ∧
    (∀ e : HttpError, e.status ≠ some 400 →
        recommendationsQueryFn (AxiosOutcome.failure e) = Except.error e ∧
        ∀ n : Nat, recommendationsRetry n e = decide (n < 3)) := by
  constructor
  · intro e he
    refine ⟨?_, fun n => ?_⟩
    · simp [recommendationsQueryFn, getRuleRecommendations, he]
    · simp [recommendationsRetry, he]
  · intro e he
    have hb : (e.status == some 400) = false := by
      simpa using he
    refine ⟨?_, fun n => ?_⟩
    · simp [recommendationsQueryFn, getRuleRecommendations, hb]
    · simp [recommendationsRetry, hb]

/-- Claim C8 witness: the 400 and non-400 behaviours at concrete errors. -/
theorem c8_recommendations_400_no_data_witness :
    recommendationsQueryFn (AxiosOutcome.failure { status := some 400 }) =
      Except.ok [] ∧
    recommendationsRetry 0 { status := some 400 } = false ∧
    recommendationsRetry 2 { status := some 500 } = true := by
  refine ⟨(c8_recommendations_400_no_data.1 { status := some 400 } rfl).1,
    (c8_recommendations_400_no_data.1 { status := some 400 } rfl).2 0, ?_⟩
  have h := (c8_recommendations_400_no_data.2 { status := some 500 } (by decide)).2 2
  simpa using h

/-- Claim C9: generating AI fixes sends at most the first `maxErrors = 20`
validation errors, in list order, to the fix service; the request carries
exactly `l.take 20`, whose length is `min 20 l.length` (so at most 20), and
which together with the dropped tail re-forms the original list. -/
theorem c9_fix_batch_cap (entity : String) (l : List ValidationError)
    (hne : l ≠ []) :
    handleGenerateFixes entity (some l) false =
      GenerateFixesOutcome.fixRequest entity (l.take maxErrors) ∧
    (l.take maxErrors).length = min maxErrors l.length ∧
    (l.take maxErrors).length ≤ 20 ∧
    l.take maxErrors ++ l.drop maxErrors = l := by
  have hl : l.length ≠ 0 := by
    simpa [List.length_eq_zero] using hne
  refine ⟨?_, List.length_take _ _, ?_, List.take_append_drop _ _⟩
  · simp [handleGenerateFixes, hl]
  · rw [List.length_take]
    exact min_le_left _ _

/-- A sample validation error used by the C9 witness. -/
def c9SampleError : ValidationError :=
  { id := "tasks-1", field := "priority", value := none, error := "bad",
    suggested_fix := none }

/-- Claim C9 witness: with 21 errors, the request carries exactly the first
20. -/
theorem c9_fix_batch_cap_witness :
    handleGenerateFixes "tasks" (some (List.replicate 21 c9SampleError)) false =
      GenerateFixesOutcome.fixRequest "tasks"
        ((List.replicate 21 c9SampleError).take maxErrors) ∧
    ((List.replicate 21 c9SampleError).take maxErrors).length ≤ 20 :=
  ⟨(c9_fix_batch_cap "tasks" _ (by simp)).1,
   (c9_fix_batch_cap "tasks" _ (by simp)).2.2.1⟩

/-- Claim C10: when the backend status map holds no entity whose `fileName`
equals the requested filename and no entity has data, `getUploadStatus`
reports the file as `{filename, status: 'completed', progress: 100}` — never
as `failed` or `pending`. -/
theorem c10_upload_status_default (filename : String) (success : Bool)
    (entities : List (String × EntityUploadInfo))
    (h : ∀ p ∈ entities, p.2.fileName ≠ some filename ∧ p.2.hasData = false) :
    getUploadStatus filename { success := success, entities := some entities } =
      { filename := filename, status := "completed", progress := 100,
        message := "File processed" } := by
  cases success with
  | false => rfl
  | true =>
    have hfind : entities.find?
        (fun p => p.2.fileName == some filename || p.2.hasData) = none := by
      apply List.find?_eq_none.mpr
      intro p hp
      simp [(h p hp).1, (h p hp).2]
    simp [getUploadStatus, hfind]

/-- Claim C10 witness: an unknown filename against a map whose only entity
has no data. -/
theorem c10_upload_status_default_witness :
    getUploadStatus "report.csv"
      { success := true,
        entities := some [("clients",
          { fileName := some "clients.csv", hasData := false, recordCount := 0 })] } =
      { filename := "report.csv", status := "completed", progress := 100,
        message := "File processed" } :=
  c10_upload_status_default "report.csv" true _ (by decide)

/-- Claim C1: per-fix reconciliation prefers an exact `originalValidationId`
match against an original error's ID and only falls back to the first
field-name match when no such match exists; a fix whose
`originalValidationId` equals an existing original error's ID puts
`that error's ID -> fix.rowId` into the map, and applying the transformed
fix (whose own id is `fix.rowId`, a real record ID) issues the update
request against `fix.rowId`, not the original validation-error ID. -/
theorem c1_fix_id_reconciliation (entity : String)
    (errors : List ValidationError) (fix : AIFix) (v : String)
    (e : ValidationError)
    (hov : fix.originalValidationId = some v) (hv : v ≠ "")
    (hfind : errors.find? (fun er => er.id == v) = some e)
    (hreal : ∀ er ∈ errors, er.id ≠ fix.rowId)
    (hpat : matchesSyntheticId fix.rowId = false)
    (hrid : fix.rowId ≠ "")
    (hsug : jsTruthyOpt fix.suggestedValue = true) :
    findMatchingOriginalError errors fix = some e ∧
    e ∈ errors ∧ e.id = v ∧
    jsMapGet (buildFixIdMapping errors [fix]) e.id = some fix.rowId ∧
    handleApplyFix entity (buildFixIdMapping errors [fix])
        (transformFix errors fix) =
      ApplyFixOutcome.updateRequest entity fix.rowId fix.field
        fix.suggestedValue ∧
    (∀ fix2 : AIFix, fix2.originalValidationId = none →
        findMatchingOriginalError errors fix2 =
          errors.find? (fun er => er.field == fix2.field)) ∧
    (∀ (fix2 : AIFix) (v2 : String), fix2.originalValidationId = some v2 →
        errors.find? (fun er => er.id == v2) = none →
        findMatchingOriginalError errors fix2 =
          errors.find? (fun er => er.field == fix2.field)) := by
  have hvb : (v == "") = false := beq_eq_false_iff_ne.mpr hv
  have h1 : findMatchingOriginalError errors fix = some e := by
    simp [findMatchingOriginalError, hov, jsTruthyStr, hvb, hfind]
  have hmem : e ∈ errors := List.mem_of_find?_eq_some hfind
  have hid : e.id = v := by
    have := List.find?_some hfind
    simpa using this
  have hne : (e.id == fix.rowId) = false :=
    beq_eq_false_iff_ne.mpr (hreal e hmem)
  have hmap : buildFixIdMapping errors [fix] = [(e.id, fix.rowId)] := by
    simp [buildFixIdMapping, h1, jsMapSet]
  have hrb : (fix.rowId == "") = false := beq_eq_false_iff_ne.mpr hrid
  refine ⟨h1, hmem, hid, ?_, ?_, ?_, ?_⟩
  · rw [hmap]
    simp [jsMapGet]
  · rw [hmap]
    simp [handleApplyFix, transformFix, h1, hsug, resolveActualId, jsMapGet,
      hne, jsTruthyStr, hrb, hpat]
  · intro fix2 h
    simp [findMatchingOriginalError, h]
  · intro fix2 v2 h hnone
    by_cases h0 : v2 = ""
    · simp [findMatchingOriginalError, h, jsTruthyStr, h0]
    · simp [findMatchingOriginalError, h, jsTruthyStr,
        beq_eq_false_iff_ne.mpr h0, hnone]

/-- The original validation error of the C1 witness scenario
(synthesized ID `tasks-4`). -/
def c1OriginalError : ValidationError :=
  { id := "tasks-4", field := "priority", value := none,
    error := "Priority out of range", suggested_fix := none }

/-- The AI fix of the C1 witness scenario: `originalValidationId = tasks-4`,
real record ID `12`. -/
def c1Fix : AIFix :=
  { rowId := "12", field := "priority", currentValue := some "99",
    suggestedValue := some "5", reason := "Out of range", confidence := 90,
    originalValidationId := some "tasks-4" }

/-- Claim C1 witness: the map sends `tasks-4` to `12`, and applying the
transformed fix issues the update against `12`. -/
theorem c1_fix_id_reconciliation_witness :
    jsMapGet (buildFixIdMapping [c1OriginalError] [c1Fix]) "tasks-4" =
      some "12" ∧
    handleApplyFix "tasks" (buildFixIdMapping [c1OriginalError] [c1Fix])
        (transformFix [c1OriginalError] c1Fix) =
      ApplyFixOutcome.updateRequest "tasks" "12" "priority" (some "5") := by
  have h := c1_fix_id_reconciliation "tasks" [c1OriginalError] c1Fix "tasks-4"
    c1OriginalError rfl (by decide) (by decide) (by decide) (by decide)
    (by decide) (by decide)
  exact ⟨h.2.2.2.1, h.2.2.2.2.1⟩

/-- Claim C2: for every fix whose resolved record ID falls back to the fix's
own id (nothing usable in the reconciliation map) while that id still matches
the synthesized pattern `^(clients|workers|tasks)-\d+$`, `handleApplyFix`
rejects client-side with an error message and issues no update request. -/
theorem c2_fail_closed_guard (entity : String)
    (idMap : List (String × String)) (err : ValidationError)
    (hmap : ∀ v, jsMapGet idMap err.id = some v → v = "")
    (hpat : matchesSyntheticId err.id = true) :
    ∃ msg, handleApplyFix entity idMap err = ApplyFixOutcome.rejected msg := by
  have hact : resolveActualId idMap err.id = err.id := by
    unfold resolveActualId
    cases hg : jsMapGet idMap err.id with
    | none => rfl
    | some v => simp [hmap v hg, jsTruthyStr]
  cases hs : jsTruthyOpt err.suggested_fix with
  | false =>
    exact ⟨"No suggested fix available", by simp [handleApplyFix, hs]⟩
  | true =>
    refine ⟨"Cannot apply fix: Invalid record ID " ++ err.id, ?_⟩
    simp [handleApplyFix, hs, hact, hpat]

/-- The fix of the C2 witness scenario: an unmapped synthesized ID
`tasks-4`. -/
def c2Err : ValidationError :=
  { id := "tasks-4", field := "priority", value := none, error := "bad",
    suggested_fix := some "5" }

/-- Claim C2 witness: with an empty reconciliation map, applying a fix whose
id is `tasks-4` is rejected. -/
theorem c2_fail_closed_guard_witness :
    matchesSyntheticId "tasks-4" = true ∧
    ∃ msg, handleApplyFix "tasks" [] c2Err = ApplyFixOutcome.rejected msg :=
  ⟨by decide,
   c2_fail_closed_guard "tasks" [] c2Err
     (fun v h => by simp [jsMapGet] at h) (by decide)⟩
